import Mathlib

/-!
# QuickSSRF Interaction Client Engine — verification of the specification

A shallow embedding of the QuickSSRF backend (Caido plugin) in Lean 4,
covering the subsystems the specification's claims are about:

* the pure-JavaScript AES-256-CFB implementation
  (`packages/backend/src/services/crypto/aes.ts`, present in the repository
  as an unnamed source file);
* the RSA-OAEP decryption pipeline and hybrid message decryption
  (`packages/backend/src/services/crypto/rsa.ts` and
  `packages/backend/src/services/crypto/index.ts`);
* the random-identifier generator (`generateRandomString` in
  `packages/backend/src/services/crypto/index.ts`);
* the per-server protocol client registration and polling behaviour
  (`packages/backend/src/services/interactsh.ts`);
* the multi-server manager (`InteractshStore` in
  `packages/backend/src/stores/interactsh.ts`) together with the session
  persistence store (`packages/backend/src/stores/sessionStore.ts`).

Bytes are modelled as natural numbers (the code only ever stores values
`0..255` in `Uint8Array`s; every operation used — xor, and, or, shifts,
modulo — agrees with the 8-bit machine operation on that range, and the
definitions reproduce the source's own masking).  Byte arrays are `List Nat`.
JavaScript exceptions are modelled with `Except String` carrying the thrown
message; functions that cannot throw return plain values.
-/

namespace QuickSSRF

/-- Pointwise xor of two byte arrays, truncated to the shorter one — the shape
of every `for j < blockSize: out[j] = a[j] ^ b[j]` loop in the source. -/
def xorBytes (a b : List Nat) : List Nat :=
  List.zipWith Nat.xor a b

theorem length_xorBytes (a b : List Nat) :
    (xorBytes a b).length = min a.length b.length := by
  simp [xorBytes]

/-- Xor-ing with the same byte array twice gives back the original, provided
the mask is at least as long (so no byte of `a` is truncated away). -/
theorem xorBytes_xorBytes (a b : List Nat) (h : a.length ≤ b.length) :
    xorBytes (xorBytes a b) b = a := by
  induction a generalizing b with
  | nil => simp [xorBytes]
  | cons x xs ih =>
    cases b with
    | nil => simp at h
    | cons y ys =>
      simp only [xorBytes, List.zipWith_cons_cons] at *
      refine congrArg₂ List.cons ?_ (ih ys (Nat.le_of_succ_le_succ h))
      show x ^^^ y ^^^ y = x
      rw [Nat.xor_assoc, Nat.xor_self, Nat.xor_zero]

/-! ## AES-256 (crypto/aes.ts)

The state is kept as the flat 16-byte column-major array the source uses for
its input and output blocks (`state[row][col] = block[col*4+row]`); each
transformation is written as the function on flat indices that the source's
nested loops compute. -/

/-- The AES S-box (`SBOX` in aes.ts). -/
def SBOX : List Nat :=
  [0x63, 0x7c, 0x77, 0x7b, 0xf2, 0x6b, 0x6f, 0xc5, 0x30, 0x01, 0x67, 0x2b, 0xfe,
   0xd7, 0xab, 0x76, 0xca, 0x82, 0xc9, 0x7d, 0xfa, 0x59, 0x47, 0xf0, 0xad, 0xd4,
   0xa2, 0xaf, 0x9c, 0xa4, 0x72, 0xc0, 0xb7, 0xfd, 0x93, 0x26, 0x36, 0x3f, 0xf7,
   0xcc, 0x34, 0xa5, 0xe5, 0xf1, 0x71, 0xd8, 0x31, 0x15, 0x04, 0xc7, 0x23, 0xc3,
   0x18, 0x96, 0x05, 0x9a, 0x07, 0x12, 0x80, 0xe2, 0xeb, 0x27, 0xb2, 0x75, 0x09,
   0x83, 0x2c, 0x1a, 0x1b, 0x6e, 0x5a, 0xa0, 0x52, 0x3b, 0xd6, 0xb3, 0x29, 0xe3,
   0x2f, 0x84, 0x53, 0xd1, 0x00, 0xed, 0x20, 0xfc, 0xb1, 0x5b, 0x6a, 0xcb, 0xbe,
   0x39, 0x4a, 0x4c, 0x58, 0xcf, 0xd0, 0xef, 0xaa, 0xfb, 0x43, 0x4d, 0x33, 0x85,
   0x45, 0xf9, 0x02, 0x7f, 0x50, 0x3c, 0x9f, 0xa8, 0x51, 0xa3, 0x40, 0x8f, 0x92,
   0x9d, 0x38, 0xf5, 0xbc, 0xb6, 0xda, 0x21, 0x10, 0xff, 0xf3, 0xd2, 0xcd, 0x0c,
   0x13, 0xec, 0x5f, 0x97, 0x44, 0x17, 0xc4, 0xa7, 0x7e, 0x3d, 0x64, 0x5d, 0x19,
   0x73, 0x60, 0x81, 0x4f, 0xdc, 0x22, 0x2a, 0x90, 0x88, 0x46, 0xee, 0xb8, 0x14,
   0xde, 0x5e, 0x0b, 0xdb, 0xe0, 0x32, 0x3a, 0x0a, 0x49, 0x06, 0x24, 0x5c, 0xc2,
   0xd3, 0xac, 0x62, 0x91, 0x95, 0xe4, 0x79, 0xe7, 0xc8, 0x37, 0x6d, 0x8d, 0xd5,
   0x4e, 0xa9, 0x6c, 0x56, 0xf4, 0xea, 0x65, 0x7a, 0xae, 0x08, 0xba, 0x78, 0x25,
   0x2e, 0x1c, 0xa6, 0xb4, 0xc6, 0xe8, 0xdd, 0x74, 0x1f, 0x4b, 0xbd, 0x8b, 0x8a,
   0x70, 0x3e, 0xb5, 0x66, 0x48, 0x03, 0xf6, 0x0e, 0x61, 0x35, 0x57, 0xb9, 0x86,
   0xc1, 0x1d, 0x9e, 0xe1, 0xf8, 0x98, 0x11, 0x69, 0xd9, 0x8e, 0x94, 0x9b, 0x1e,
   0x87, 0xe9, 0xce, 0x55, 0x28, 0xdf, 0x8c, 0xa1, 0x89, 0x0d, 0xbf, 0xe6, 0x42,
   0x68, 0x41, 0x99, 0x2d, 0x0f, 0xb0, 0x54, 0xbb, 0x16]

/-- Round constants (`RCON` in aes.ts). -/
def RCON : List Nat :=
  [0x01, 0x02, 0x04, 0x08, 0x10, 0x20, 0x40, 0x80, 0x1b, 0x36]

/-- S-box lookup; indices are always `< 256` at every call site. -/
def sboxAt (x : Nat) : Nat := SBOX.getD x 0

/-- One iteration of the `gmul` loop in aes.ts: conditionally accumulate,
then double `a` in GF(2^8) and halve `b`.  `fuel` counts the remaining of the
8 iterations. -/
def gmulGo : Nat → Nat → Nat → Nat → Nat
  | 0, _, _, p => p
  | fuel + 1, a, b, p =>
    let p' := if b.land 1 = 1 then p.xor a else p
    let hiBitSet := a.land 0x80
    let a' := (a.shiftLeft 1).land 0xff
    let a'' := if hiBitSet ≠ 0 then a'.xor 0x1b else a'
    gmulGo fuel a'' (b.shiftRight 1) p'

/-- Galois-field multiplication (`gmul` in aes.ts): 8 shift-and-add rounds. -/
def gmul (a b : Nat) : Nat := gmulGo 8 a b 0

/-- `subBytes`: S-box substitution on every state byte. -/
def subBytes (st : List Nat) : List Nat := st.map sboxAt

/-- `shiftRows` on the flat column-major state: row `r` rotates left by `r`,
so the byte at `(row, col)` comes from `(row, (col + row) % 4)`. -/
def shiftRows (st : List Nat) : List Nat :=
  (List.range 16).map (fun k =>
    let row := k % 4
    let col := k / 4
    st.getD ((((col + row) % 4) * 4) + row) 0)

/-- `mixColumns`: per-column GF(2^8) matrix multiplication, exactly the four
formulas of the source. -/
def mixColumns (st : List Nat) : List Nat :=
  (List.range 16).map (fun k =>
    let row := k % 4
    let col := k / 4
    let a0 := st.getD (col * 4) 0
    let a1 := st.getD (col * 4 + 1) 0
    let a2 := st.getD (col * 4 + 2) 0
    let a3 := st.getD (col * 4 + 3) 0
    if row = 0 then ((gmul a0 2).xor (gmul a1 3)).xor (a2.xor a3)
    else if row = 1 then (a0.xor (gmul a1 2)).xor ((gmul a2 3).xor a3)
    else if row = 2 then (a0.xor a1).xor ((gmul a2 2).xor (gmul a3 3))
    else ((gmul a0 3).xor a1).xor (a2.xor (gmul a3 2)))

/-- `addRoundKey`: xor the state with a round key; like the source's loop it
always touches all 16 positions, defaulting missing entries to 0. -/
def addRoundKey (st rk : List Nat) : List Nat :=
  (List.range 16).map (fun k => (st.getD k 0).xor (rk.getD k 0))

theorem length_addRoundKey (st rk : List Nat) :
    (addRoundKey st rk).length = 16 := by
  simp [addRoundKey]

/-- `RotWord` as performed inline in `keyExpansion`:
`[t0,t1,t2,t3] → [t1,t2,t3,t0]`. -/
def rotWord (t : List Nat) : List Nat := t.drop 1 ++ t.take 1

/-- `SubWord` as performed inline in `keyExpansion`. -/
def subWord (t : List Nat) : List Nat := t.map sboxAt

/-- Xor the round constant into the first byte of a word
(`temp[0] ^= RCON[i / Nk - 1]`). -/
def xorRcon (t : List Nat) (idx : Nat) : List Nat :=
  match t with
  | [] => []
  | a :: rest => a.xor (RCON.getD idx 0) :: rest

/-- The word array `w` of `keyExpansion` (aes.ts): 8 words copied from the
key, then words 8..59 derived with the AES-256 schedule (`Nk = 8`). -/
def keyExpansionWords (key : List Nat) : List (List Nat) :=
  let init := (List.range 8).map (fun i =>
    [key.getD (4 * i) 0, key.getD (4 * i + 1) 0,
     key.getD (4 * i + 2) 0, key.getD (4 * i + 3) 0])
  (List.range 52).foldl (fun w j =>
    let i := j + 8
    let temp := w.getD (i - 1) []
    let temp' :=
      if i % 8 = 0 then xorRcon (subWord (rotWord temp)) (i / 8 - 1)
      else if i % 8 = 4 then subWord temp
      else temp
    w ++ [List.zipWith Nat.xor (w.getD (i - 8) []) temp']) init

/-- `keyExpansion` (aes.ts): the 15 round keys, each the flat column-major
4×4 matrix, i.e. the concatenation of 4 consecutive schedule words. -/
def keyExpansion (key : List Nat) : List (List Nat) :=
  let w := keyExpansionWords key
  (List.range 15).map (fun round =>
    w.getD (round * 4) [] ++ w.getD (round * 4 + 1) [] ++
    w.getD (round * 4 + 2) [] ++ w.getD (round * 4 + 3) [])

/-- `aesEncryptBlock` (aes.ts): initial round-key addition, 13 full rounds,
and the final round without `mixColumns`.  Input and output are the flat
column-major 16-byte block. -/
def aesEncryptBlock (block : List Nat) (roundKeys : List (List Nat)) :
    List Nat :=
  let st0 := addRoundKey block (roundKeys.getD 0 [])
  let stMain := (List.range 13).foldl (fun st r =>
    addRoundKey (mixColumns (shiftRows (subBytes st))) (roundKeys.getD (r + 1) []))
    st0
  addRoundKey (shiftRows (subBytes stMain)) (roundKeys.getD 14 [])

/-- The block cipher always produces exactly 16 bytes, whatever its input —
the source writes into a fresh `Uint8Array(16)`. -/
theorem length_aesEncryptBlock (block : List Nat) (roundKeys : List (List Nat)) :
    (aesEncryptBlock block roundKeys).length = 16 := by
  simp [aesEncryptBlock, length_addRoundKey]

/-- Zero-pad a partial block to 16 bytes
(`new Uint8Array(16); set(chunk)` in the CFB loops). -/
def padBlock16 (c : List Nat) : List Nat :=
  c ++ List.replicate (16 - c.length) 0

/-- The CFB encryption loop of `aesCfbEncrypt`: each 16-byte chunk of
plaintext is xor-ed with the encryption of the previous ciphertext block
(the IV for the first chunk); the chaining block is the ciphertext chunk,
zero-padded when partial. -/
def cfbEncryptLoop (roundKeys : List (List Nat)) (prev pt : List Nat) :
    List Nat :=
  if h : pt = [] then []
  else
    let ks := aesEncryptBlock prev roundKeys
    let chunk := pt.take 16
    let c := xorBytes chunk ks
    c ++ cfbEncryptLoop roundKeys (if chunk.length = 16 then c else padBlock16 c)
      (pt.drop 16)
termination_by pt.length
decreasing_by
  simp only [List.length_drop]
  exact Nat.sub_lt (List.length_pos.mpr h) (by decide)

/-- The CFB decryption loop of `aesCfbDecrypt`: each chunk of ciphertext is
xor-ed with the encryption of the previous ciphertext block; the chaining
block is the ciphertext chunk itself (zero-padded when partial). -/
def cfbDecryptLoop (roundKeys : List (List Nat)) (prev ct : List Nat) :
    List Nat :=
  if h : ct = [] then []
  else
    let ks := aesEncryptBlock prev roundKeys
    let chunk := ct.take 16
    let p := xorBytes chunk ks
    p ++ cfbDecryptLoop roundKeys (if chunk.length = 16 then chunk else padBlock16 chunk)
      (ct.drop 16)
termination_by ct.length
decreasing_by
  simp only [List.length_drop]
  exact Nat.sub_lt (List.length_pos.mpr h) (by decide)

/-- `aesCfbEncrypt` (aes.ts): guards on key and IV length, then the CFB
loop.  A thrown `Error` is an `Except.error` with the thrown message. -/
def aesCfbEncrypt (key iv plaintext : List Nat) : Except String (List Nat) :=
  if key.length ≠ 32 then .error "AES-256 requires a 32-byte key"
  else if iv.length ≠ 16 then .error "AES requires a 16-byte IV"
  else .ok (cfbEncryptLoop (keyExpansion key) iv plaintext)

/-- `aesCfbDecrypt` (aes.ts). -/
def aesCfbDecrypt (key iv ciphertext : List Nat) : Except String (List Nat) :=
  if key.length ≠ 32 then .error "AES-256 requires a 32-byte key"
  else if iv.length ≠ 16 then .error "AES requires a 16-byte IV"
  else .ok (cfbDecryptLoop (keyExpansion key) iv ciphertext)

theorem cfbEncryptLoop_nil (rks : List (List Nat)) (prev : List Nat) :
    cfbEncryptLoop rks prev [] = [] := by
  rw [cfbEncryptLoop]
  simp

theorem cfbDecryptLoop_nil (rks : List (List Nat)) (prev : List Nat) :
    cfbDecryptLoop rks prev [] = [] := by
  rw [cfbDecryptLoop]
  simp

/-- The CFB loops invert each other for any chaining block and any round-key
schedule: both sides derive the keystream from the same previous-ciphertext
chain, so the xor cancels chunk by chunk. -/
theorem cfbDecryptLoop_cfbEncryptLoop (rks : List (List Nat)) :
    ∀ (n : Nat) (pt prev : List Nat), pt.length ≤ n →
      cfbDecryptLoop rks prev (cfbEncryptLoop rks prev pt) = pt := by
  intro n
  induction n with
  | zero =>
    intro pt prev hn
    have hpt : pt = [] := List.eq_nil_of_length_eq_zero (Nat.le_zero.mp hn)
    subst hpt
    rw [cfbEncryptLoop_nil, cfbDecryptLoop_nil]
  | succ n ih =>
    intro pt prev hn
    by_cases hpt : pt = []
    · subst hpt
      rw [cfbEncryptLoop_nil, cfbDecryptLoop_nil]
    · rw [cfbEncryptLoop, dif_neg hpt]
      have hksLen : (aesEncryptBlock prev rks).length = 16 :=
        length_aesEncryptBlock prev rks
      have hchunkLen : (pt.take 16).length = min 16 pt.length :=
        List.length_take 16 pt
      have hchLe : (pt.take 16).length ≤ 16 := by omega
      have hcLen : (xorBytes (pt.take 16) (aesEncryptBlock prev rks)).length
          = (pt.take 16).length := by
        rw [length_xorBytes, hksLen]; omega
      have hptPos : 0 < pt.length := List.length_pos.mpr hpt
      have hcancel :
          xorBytes (xorBytes (pt.take 16) (aesEncryptBlock prev rks))
            (aesEncryptBlock prev rks) = pt.take 16 :=
        xorBytes_xorBytes (pt.take 16) (aesEncryptBlock prev rks) (by omega)
      by_cases hfull : (pt.take 16).length = 16
      · -- a full 16-byte chunk: the ciphertext chunk is exactly c
        simp only [if_pos hfull]
        set c := xorBytes (pt.take 16) (aesEncryptBlock prev rks) with hcDef
        set E := cfbEncryptLoop rks c (pt.drop 16) with hEDef
        have hc16 : c.length = 16 := by omega
        have hne : c ++ E ≠ [] := by
          intro hco
          rcases List.append_eq_nil.mp hco with ⟨h1, _⟩
          rw [h1] at hc16
          simp at hc16
        rw [cfbDecryptLoop, dif_neg hne]
        have htake : (c ++ E).take 16 = c := by
          rw [← hc16]; exact List.take_left c E
        have hdrop : (c ++ E).drop 16 = E := by
          rw [← hc16]; exact List.drop_left c E
        have hrestLen : (pt.drop 16).length ≤ n := by
          rw [List.length_drop]; omega
        have hrt : cfbDecryptLoop rks c E = pt.drop 16 := by
          rw [hEDef]; exact ih (pt.drop 16) c hrestLen
        simp only [htake, hdrop, if_pos hc16, hcancel, hrt]
        exact List.take_append_drop 16 pt
      · -- a partial final chunk: the whole plaintext fits in one block
        have hlt : pt.length < 16 := by omega
        have htakeAll : pt.take 16 = pt := List.take_of_length_le (by omega)
        have hrest : pt.drop 16 = [] := List.drop_eq_nil_of_le (by omega)
        simp only [if_neg hfull, hrest, cfbEncryptLoop_nil, List.append_nil]
        set c := xorBytes (pt.take 16) (aesEncryptBlock prev rks) with hcDef
        have hcLenPt : c.length = pt.length := by rw [hcLen, htakeAll]
        have hcne : c ≠ [] := by
          intro hco
          rw [hco] at hcLenPt
          simp at hcLenPt
          omega
        rw [cfbDecryptLoop, dif_neg hcne]
        have htakeC : c.take 16 = c := List.take_of_length_le (by omega)
        have hdropC : c.drop 16 = [] := List.drop_eq_nil_of_le (by omega)
        simp only [htakeC, hdropC, cfbDecryptLoop_nil, List.append_nil]
        rw [hcancel]
        exact htakeAll


/-! ## RSA-OAEP (crypto/rsa.ts)

The source calls two platform library functions it does not implement:
node's `createHash("sha256")` and `Buffer`'s Base64 codec.  Following the
shallow-embedding discipline these external calls become parameters
(`hash : List Nat → List Nat`, `b64decode : String → List Nat`); everything
the repository implements itself is translated. -/

/-- `uint8ArrayToBigInt` (rsa.ts): big-endian bytes to an integer via
`result = (result << 8) | byte`. -/
def uint8ArrayToBigInt (bytes : List Nat) : Nat :=
  bytes.foldl (fun result byte => (result.shiftLeft 8).lor byte) 0

/-- `bigIntToUint8Array` (rsa.ts): the low byte lands at the last index and
the number is shifted right as the loop walks toward index 0. -/
def bigIntToUint8Array (num : Nat) : Nat → List Nat
  | 0 => []
  | len + 1 => bigIntToUint8Array (num.shiftRight 8) len ++ [num.land 0xff]

/-- The square-and-multiply loop of `modPow` (rsa.ts). -/
def modPowGo (result base exp m : Nat) : Nat :=
  if exp = 0 then result
  else
    modPowGo (if exp % 2 = 1 then result * base % m else result)
      (base * base % m) (exp / 2) m
termination_by exp
decreasing_by exact Nat.div_lt_self (Nat.pos_of_ne_zero (by assumption)) (by decide)

/-- `modPow` (rsa.ts): modular exponentiation by squaring. -/
def modPow (base exp m : Nat) : Nat := modPowGo 1 (base % m) exp m

/-- RSA private key (`RSAPrivateKey` in rsa.ts): modulus, private exponent,
primes and CRT coefficients. -/
structure RSAPrivateKey where
  n : Nat
  d : Nat
  p : Nat
  q : Nat
  dp : Nat
  dq : Nat
  qi : Nat
deriving DecidableEq, Repr

/-- RSA public key (`RSAPublicKey` in rsa.ts). -/
structure RSAPublicKey where
  n : Nat
  e : Nat
deriving DecidableEq, Repr

/-- `RSAKeyPair` (rsa.ts). -/
structure RSAKeyPair where
  publicKey : RSAPublicKey
  privateKey : RSAPrivateKey
deriving DecidableEq, Repr

/-- `rsaDecryptRaw` (rsa.ts): CRT decryption.  The intermediate values are
JavaScript `bigint`s whose `%` truncates toward zero, so they are modelled in
`Int` with `Int.tmod`; the final value is nonnegative (the source would
return it as a nonnegative bigint), read back with `toNat`. -/
def rsaDecryptRaw (ciphertext : Nat) (key : RSAPrivateKey) : Nat :=
  let m1 : Int := modPow (ciphertext % key.p) key.dp key.p
  let m2 : Int := modPow (ciphertext % key.q) key.dq key.q
  let h0 : Int := ((key.qi : Int) * ((m1 - m2 + (key.p : Int)).tmod (key.p : Int))).tmod (key.p : Int)
  let h1 : Int := if h0 < 0 then h0 + (key.p : Int) else h0
  (m2 + h1 * (key.q : Int)).toNat

/-- The 4-byte big-endian counter block of `mgf1Sha256` (rsa.ts). -/
def mgf1CounterBytes (counter : Nat) : List Nat :=
  [(counter.shiftRight 24).land 0xff, (counter.shiftRight 16).land 0xff,
   (counter.shiftRight 8).land 0xff, counter.land 0xff]

/-- The `while offset < length` loop of `mgf1Sha256` (rsa.ts); `remaining`
is `length - offset`.  Each round hashes `seed ++ counter` and copies
`min 32 remaining` bytes (the hash parameter stands for SHA-256, which
always yields 32 bytes). -/
def mgf1Go (hash : List Nat → List Nat) (seed : List Nat)
    (remaining counter : Nat) : List Nat :=
  if h : remaining = 0 then []
  else
    let hashOut := hash (seed ++ mgf1CounterBytes counter)
    let copyLen := min 32 remaining
    hashOut.take copyLen ++ mgf1Go hash seed (remaining - copyLen) (counter + 1)
termination_by remaining
decreasing_by omega

/-- `mgf1Sha256` (rsa.ts) with the hash as a parameter. -/
def mgf1 (hash : List Nat → List Nat) (seed : List Nat) (len : Nat) :
    List Nat :=
  mgf1Go hash seed len 0

/-- The separator scan of `oaepDecode` (rsa.ts): walk `db` from index 32
looking for the `0x01` separator; a nonzero byte before it invalidates the
padding.  Returns the separator index (if found) and the validity verdict of
this scan; `fuel` is the number of indices left to visit. -/
def oaepFindSeparator (db : List Nat) : Nat → Nat → Option Nat × Bool
  | _, 0 => (none, true)
  | i, fuel + 1 =>
    if db.getD i 0 = 0x01 then (some i, true)
    else if db.getD i 0 ≠ 0x00 then (none, false)
    else oaepFindSeparator db (i + 1) fuel

/-- `oaepDecode` (rsa.ts): OAEP decoding with SHA-256 masks; a thrown
`Error` is an `Except.error` with the thrown message. -/
def oaepDecode (hash : List Nat → List Nat) (em label : List Nat) :
    Except String (List Nat) :=
  let k := em.length
  if k < 2 * 32 + 2 then .error "Decryption error: message too short"
  else
    let y := em.getD 0 0
    let maskedSeed := (em.drop 1).take 32
    let maskedDB := em.drop 33
    let seedMask := mgf1 hash maskedDB 32
    let seed := xorBytes maskedSeed seedMask
    let dbMask := mgf1 hash seed (k - 33)
    let db := xorBytes maskedDB dbMask
    let lHash := hash label
    let lHashPrime := db.take 32
    let validLHash := y = 0 ∧ ∀ i ∈ List.range 32, lHash.getD i 0 = lHashPrime.getD i 0
    let sep := oaepFindSeparator db 32 (db.length - 32)
    if validLHash ∧ sep.2 = true then
      match sep.1 with
      | some idx => .ok (db.drop (idx + 1))
      | none => .error "Decryption error: invalid OAEP padding"
    else .error "Decryption error: invalid OAEP padding"

/-- `bigIntLength` (rsa.ts): number of binary digits. -/
def bigIntLength (n : Nat) : Nat :=
  if n = 0 then 0 else bigIntLength (n / 2) + 1
termination_by n
decreasing_by exact Nat.div_lt_self (Nat.pos_of_ne_zero (by assumption)) (by decide)

/-- `rsaOaepDecrypt` (rsa.ts): length check, textbook RSA via CRT, then OAEP
decoding.  The empty label is the source's default argument. -/
def rsaOaepDecrypt (hash : List Nat → List Nat) (ciphertext : List Nat)
    (privateKey : RSAPrivateKey) (label : List Nat) :
    Except String (List Nat) :=
  let k := (bigIntLength privateKey.n + 7) / 8
  if ciphertext.length ≠ k then
    .error ("Decryption error: ciphertext length (" ++
      toString ciphertext.length ++ ") != key length (" ++ toString k ++ ")")
  else
    oaepDecode hash
      (bigIntToUint8Array (rsaDecryptRaw (uint8ArrayToBigInt ciphertext) privateKey) k)
      label

/-! ## Hybrid decryption and identifiers (crypto/index.ts) -/

/-- The key-normalization step of `decryptMessage` (crypto/index.ts):
`new Uint8Array(32); set(key)` zero-pads on the right, `slice(0, 32)`
truncates. -/
def normalizeAesKey (decryptedKey : List Nat) : List Nat :=
  if decryptedKey.length = 32 then decryptedKey
  else if decryptedKey.length < 32 then
    decryptedKey ++ List.replicate (32 - decryptedKey.length) 0
  else decryptedKey.take 32

/-- `decryptMessage` (crypto/index.ts): the full hybrid pipeline.  The
module-level `keyPair` is passed explicitly (`none` models the
not-yet-initialized store); `hash`, `b64decode` and `utf8decode` stand for
the platform's SHA-256, Base64 decoder and UTF-8 decoder
(`decodeURIComponent`/`escape` with a latin-1 fallback), which the
repository does not implement itself. -/
def decryptMessage (hash : List Nat → List Nat) (b64decode : String → List Nat)
    (utf8decode : List Nat → String) (keyPair : Option RSAKeyPair)
    (key secureMessage : String) : Except String String :=
  match keyPair with
  | none => .error "Keys not initialized. Call initializeRSAKeys() first."
  | some pair =>
    match rsaOaepDecrypt hash (b64decode key) pair.privateKey [] with
    | .error e => .error e
    | .ok decryptedKey =>
      let secureMessageBuffer := b64decode secureMessage
      let iv := secureMessageBuffer.take 16
      let ciphertext := secureMessageBuffer.drop 16
      let aesKey := normalizeAesKey decryptedKey
      match aesCfbDecrypt aesKey iv ciphertext with
      | .error e => .error e
      | .ok decrypted => .ok (utf8decode decrypted)

/-- The specification's key rule, word for word: "if the decrypted symmetric
key is shorter than 32 bytes right-pad with zeros, if longer truncate to
32". -/
def padOrTruncateKeySpec (k : List Nat) : List Nat :=
  if k.length < 32 then k ++ List.replicate (32 - k.length) 0
  else k.take 32

/-- The specification's step list for *decrypt_interaction*: Base64-decode
the key blob; RSA-OAEP-decrypt it; Base64-decode the secure message; first
16 bytes IV, rest ciphertext; pad/truncate the key to 32 bytes;
AES-256-CFB-decrypt; decode as UTF-8. -/
def decryptInteractionSpec (hash : List Nat → List Nat)
    (b64decode : String → List Nat) (utf8decode : List Nat → String)
    (keyPair : Option RSAKeyPair) (key secureMessage : String) :
    Except String String :=
  match keyPair with
  | none => .error "Keys not initialized. Call initializeRSAKeys() first."
  | some pair =>
    match rsaOaepDecrypt hash (b64decode key) pair.privateKey [] with
    | .error e => .error e
    | .ok decryptedKey =>
      let secureMessageBuffer := b64decode secureMessage
      let iv := secureMessageBuffer.take 16
      let ciphertext := secureMessageBuffer.drop 16
      let aesKey := padOrTruncateKeySpec decryptedKey
      match aesCfbDecrypt aesKey iv ciphertext with
      | .error e => .error e
      | .ok decrypted => .ok (utf8decode decrypted)

/-- The source's three-way key normalization coincides with the
specification's pad-or-truncate rule (at exactly 32 bytes, truncation to 32
is the identity). -/
theorem normalizeAesKey_eq_padOrTruncateKeySpec (k : List Nat) :
    normalizeAesKey k = padOrTruncateKeySpec k := by
  unfold normalizeAesKey padOrTruncateKeySpec
  by_cases h1 : k.length = 32
  · rw [if_pos h1, if_neg (by omega)]
    exact (List.take_of_length_le (by omega)).symm
  · rw [if_neg h1]

/-- The alphabet of `generateRandomString` (crypto/index.ts). -/
def grsAlphabet (lettersOnly : Bool) : List Char :=
  if lettersOnly then "abcdefghijklmnopqrstuvwxyz".toList
  else "abcdefghijklmnopqrstuvwxyz0123456789".toList

/-- The per-position selection of `generateRandomString`:
`characters[bytes[i] % characters.length]`.  The default is never reached
because the index is reduced modulo the alphabet length. -/
def grsCharAt (lettersOnly : Bool) (byte : Nat) : Char :=
  (grsAlphabet lettersOnly).getD (byte % (grsAlphabet lettersOnly).length) '?'

/-- `generateRandomString` (crypto/index.ts): one CSPRNG byte per output
character, reduced modulo the alphabet size.  `bytes` stands for the
`randomBytes(length)` output (node's CSPRNG, a platform call). -/
def generateRandomString (len : Nat) (lettersOnly : Bool) (bytes : List Nat) :
    String :=
  String.mk ((List.range len).map (fun i => grsCharAt lettersOnly (bytes.getD i 0)))


/-! ## Protocol client registration (services/interactsh.ts) -/

/-- A decrypted interaction object as delivered to the store's callback
(`Record<string, unknown>` in the source); only the keys `parseInteraction`
reads are modelled, a missing key is `none`.  The values reaching the store
have passed through `String(...)`, so they are strings here. -/
structure RawInteraction where
  protocol : Option String
  fullId : Option String
  qType : Option String
  rawRequest : Option String
  rawResponse : Option String
  remoteAddress : Option String
  timestamp : Option String
deriving DecidableEq, Repr

/-- An HTTP response as the client code observes it: status and body text. -/
structure HttpResponse where
  status : Nat
  body : String
deriving DecidableEq, Repr

/-- The `try` body of `performRegistration` (services/interactsh.ts
lines 153–165): HTTP 200 succeeds, any other status throws an error whose
message carries the response body text. -/
def registrationInnerResult (response : HttpResponse) : Except String Unit :=
  if response.status = 200 then .ok ()
  else .error ("Registration failed: " ++ response.body)

/-- `performRegistration` (services/interactsh.ts): the `catch` block logs
the inner error and rethrows a fixed message.  Modelled for the case where a
response was received (network failures land in the same `catch`). -/
def performRegistration (response : HttpResponse) : Except String Unit :=
  match registrationInnerResult response with
  | .ok _ => .ok ()
  | .error _ =>
    .error "Registration failed, please check your server URL and token"

/-- A `/poll` response as categorized by `getInteractions`
(services/interactsh.ts): a 200 with decrypted-and-parsed items, or the
error statuses.  The per-item decrypt/parse step is not modelled here (it is
`decryptMessage` above); items stand for the raw objects handed to the
interaction callback. -/
inductive PollResponse where
  | ok (items : List RawInteraction)
  | badRequest
  | unauthorized
  | otherError (body : String)

/-- The outcome of the client's `poll`/`getInteractions` pair
(services/interactsh.ts lines 189–228 and 331–337) for a client in the
`Polling` state: a 400 rethrows `SESSION_EXPIRED` verbatim, every other
failure is logged and rethrown as the generic polling error. -/
def clientPollOutcome (response : PollResponse) :
    Except String (List RawInteraction) :=
  match response with
  | .ok items => .ok items
  | .badRequest => .error "SESSION_EXPIRED"
  | .unauthorized => .error "Error polling interactions"
  | .otherError _ => .error "Error polling interactions"

/-! ## The multi-server manager (stores/interactsh.ts) -/

/-- `ActiveUrl` (stores/interactsh.ts). -/
structure ActiveUrl where
  url : String
  uniqueId : String
  createdAt : String
  isActive : Bool
  serverUrl : String
  tag : Option String
deriving DecidableEq, Repr

/-- `Interaction` (shared package; fields as produced by
`parseInteraction`). -/
structure Interaction where
  protocol : String
  uniqueId : String
  fullId : String
  qType : String
  rawRequest : String
  rawResponse : String
  remoteAddress : String
  timestamp : String
  tag : Option String
  serverUrl : Option String
deriving DecidableEq, Repr

/-- Modelled from the spec: the shared `InteractshStartOptions` type lives in
the `packages/shared` sources, which are absent from the snapshot; the
fields follow §6's start configuration and the uses in
`InteractshStore.getOrCreateClient`. -/
structure InteractshStartOptions where
  token : Option String
  pollingInterval : Nat
  correlationIdLength : Nat
  correlationIdNonceLength : Nat
deriving DecidableEq, Repr

/-- The non-confidential persisted record (`PersistedData` in
stores/interactsh.ts), written to `data.json`. -/
structure PersistedData where
  interactions : List Interaction
  activeUrls : List ActiveUrl
  interactionCounter : Nat
  filter : String
deriving DecidableEq, Repr

/-- The mutable fields of `InteractshStore`.  The `clients` map is kept as
its list of keys in insertion order (the JavaScript `Map` iteration order);
the per-server client runtime state is modelled separately. -/
structure StoreState where
  clients : List String
  interactions : List Interaction
  activeUrls : List ActiveUrl
  filter : String
  isStarted : Bool
  interactionCounter : Nat
  currentOptions : Option InteractshStartOptions
deriving DecidableEq, Repr

/-- Events emitted to the host (`emitDataChanged` etc. in backend/index.ts). -/
inductive Event where
  | dataChanged
  | urlGenerated (url : String)
  | filterChanged (filter : String)
deriving DecidableEq, Repr

/-- The constructor's `loadPersistedData` (stores/interactsh.ts lines
63–81): install the parsed file contents, or start empty when the file is
missing or unreadable.  Construction always leaves the store not started. -/
def loadPersistedData (file : Option PersistedData) : StoreState :=
  match file with
  | some parsed =>
    { clients := [], interactions := parsed.interactions,
      activeUrls := parsed.activeUrls,
      interactionCounter := parsed.interactionCounter,
      filter := parsed.filter, isStarted := false, currentOptions := none }
  | none =>
    { clients := [], interactions := [], activeUrls := [],
      interactionCounter := 0, filter := "", isStarted := false,
      currentOptions := none }

/-- `InteractshStore.start` (stores/interactsh.ts lines 126–137): when
already started, log and return `true`; otherwise record the options, reset
the interaction log and mark the store started.  The body touches nothing
else — in particular it makes no call into `SessionStore`. -/
def start (s : StoreState) (options : InteractshStartOptions) :
    StoreState × Bool :=
  if s.isStarted then (s, true)
  else
    ({ s with currentOptions := some options, interactions := [],
              isStarted := true }, true)

/-- `getInteractions` (stores/interactsh.ts): a snapshot copy of the log. -/
def getInteractions (s : StoreState) : List Interaction :=
  s.interactions

/-- `getClientCount` (stores/interactsh.ts): the size of the clients map. -/
def getClientCount (s : StoreState) : Nat :=
  s.clients.length

/-- JavaScript's `String.prototype.startsWith`, a platform builtin: a
character-prefix test. -/
def strStartsWith (s pre : String) : Bool :=
  pre.toList.isPrefixOf s.toList

/-- The match predicate of the interaction callback
(stores/interactsh.ts line 162): prefix match or exact equality. -/
def urlMatches (u : ActiveUrl) (fullId : String) : Bool :=
  strStartsWith fullId u.uniqueId || u.uniqueId == fullId

/-- `parseInteraction` (stores/interactsh.ts lines 100–124) with the already
incremented counter and the clock readings passed in (`Date.now()` and
`new Date().toISOString()`). -/
def parseInteraction (raw : RawInteraction) (tag : Option String)
    (serverUrl : Option String) (counter nowMs : Nat) (nowIso : String) :
    Interaction :=
  { protocol := raw.protocol.getD "unknown",
    uniqueId := "int_" ++ toString nowMs ++ "_" ++ toString counter,
    fullId := raw.fullId.getD "",
    qType := raw.qType.getD "",
    rawRequest := raw.rawRequest.getD "",
    rawResponse := raw.rawResponse.getD "",
    remoteAddress := raw.remoteAddress.getD "",
    timestamp := raw.timestamp.getD nowIso,
    tag := tag,
    serverUrl := serverUrl }

/-- The interaction callback `getOrCreateClient` registers with every
protocol client (stores/interactsh.ts lines 158–184): find the first
tracked URL matching `full-id`; append a parsed interaction only when that
URL is active (`savePersistedData(false)` emits no event); otherwise log
and drop. -/
def interactionCallback (s : StoreState) (raw : RawInteraction)
    (nowMs : Nat) (nowIso : String) : StoreState × List Event :=
  match s.activeUrls.find? (fun u => urlMatches u (raw.fullId.getD "")) with
  | some matchingUrl =>
    if matchingUrl.isActive then
      ({ s with interactionCounter := s.interactionCounter + 1,
                interactions := s.interactions ++
                  [parseInteraction raw matchingUrl.tag
                    (some matchingUrl.serverUrl) (s.interactionCounter + 1)
                    nowMs nowIso] }, [])
    else (s, [])
  | none => (s, [])

/-- `InteractshStore.poll` (stores/interactsh.ts lines 251–271): reject when
not started; force-poll every client in map order, logging and swallowing
per-client errors; afterwards emit `DataChanged` only when asked to notify
and the log grew.  `responses` gives each server's answer to this pass. -/
def deliverItems (nowMs : Nat) (nowIso : String) (s : StoreState)
    (items : List RawInteraction) : StoreState :=
  items.foldl (fun st raw => (interactionCallback st raw nowMs nowIso).1) s

/-- One step of the store's per-client loop: a successful force-poll
delivers each item to the interaction callback, a failure is logged and the
state is left alone. -/
def pollClientStep (responses : String → PollResponse) (nowMs : Nat)
    (nowIso : String) (acc : StoreState) (serverUrl : String) : StoreState :=
  match clientPollOutcome (responses serverUrl) with
  | .ok items => deliverItems nowMs nowIso acc items
  | .error _ => acc

def poll (s : StoreState) (responses : String → PollResponse)
    (nowMs : Nat) (nowIso : String) (notifyOthers : Bool) :
    Except String (StoreState × List Event) :=
  if s.isStarted = false then .error "Interactsh store not started"
  else
    let countBefore := s.interactions.length
    let sAfter := s.clients.foldl (pollClientStep responses nowMs nowIso) s
    .ok (sAfter,
      if notifyOthers ∧ countBefore < sAfter.interactions.length
      then [Event.dataChanged] else [])

/-- In-place mutation of the first matching element of `activeUrls`, as
`setUrlActive` performs through the object `find` returned. -/
def setFirstActive : List ActiveUrl → String → Bool → List ActiveUrl
  | [], _, _ => []
  | u :: rest, uniqueId, isActive =>
    if u.uniqueId == uniqueId then { u with isActive := isActive } :: rest
    else u :: setFirstActive rest uniqueId isActive

/-- `setUrlActive` (stores/interactsh.ts lines 311–322): find the URL, set
its flag, persist with notification (`savePersistedData()` defaults to
`notify = true` and emits `DataChanged`), return whether it was found. -/
def setUrlActive (s : StoreState) (uniqueId : String) (isActive : Bool) :
    StoreState × Bool × List Event :=
  match s.activeUrls.find? (fun u => u.uniqueId == uniqueId) with
  | some _ =>
    ({ s with activeUrls := setFirstActive s.activeUrls uniqueId isActive },
      true, [Event.dataChanged])
  | none => (s, false, [])

/-! ## Session persistence and the system view (stores/sessionStore.ts) -/

/-- `ClientSession` (stores/sessionStore.ts). -/
structure ClientSession where
  serverUrl : String
  correlationId : String
  secretKey : String
  token : Option String
deriving DecidableEq, Repr

/-- The store state together with the durable records of `SessionStore`
(the `rsa_keys` row as its serialized text, and the `client_sessions`
rows).  `SessionStore.loadOrGenerateRSAKeys` (sessionStore.ts lines 80–103)
and `loadClientSessions` exist in the repository but have no caller, so no
store operation reads or writes these records. -/
structure SystemState where
  store : StoreState
  persistedSessions : List ClientSession
  persistedKeypairRecord : Option String
deriving DecidableEq, Repr

/-- `start` as observed at the system level: the body of
`InteractshStore.start` contains no persistence access, so the durable
records are untouched. -/
def systemStart (sys : SystemState) (options : InteractshStartOptions) :
    SystemState × Bool :=
  ({ sys with store := (start sys.store options).1 }, (start sys.store options).2)

/-- `poll` as observed at the system level: the body of
`InteractshStore.poll` contains no persistence access beyond the
non-confidential `savePersistedData` file, so the session records are
untouched. -/
def systemPoll (sys : SystemState) (responses : String → PollResponse)
    (nowMs : Nat) (nowIso : String) (notifyOthers : Bool) :
    Except String (SystemState × List Event) :=
  match poll sys.store responses nowMs nowIso notifyOthers with
  | .error e => .error e
  | .ok (s, events) => .ok ({ sys with store := s }, events)

/-- Boolean substring test, used to state what an error message does — or
does not — contain. -/
def containsSubstr (needle hay : String) : Bool :=
  (List.range (hay.toList.length + 1)).any
    (fun i => needle.toList.isPrefixOf (hay.toList.drop i))

/-- `generateUrl` reaching registration (stores/interactsh.ts lines
219–241 with `getOrCreateClient`): rejected when not started; an existing
client skips registration; otherwise the new client registers and a
registration failure propagates uncaught to the caller. -/
def generateUrlRegistrationOutcome (s : StoreState) (serverUrl : String)
    (response : HttpResponse) : Except String Unit :=
  if s.isStarted = false then .error "Interactsh store not started"
  else if s.clients.contains serverUrl then .ok ()
  else performRegistration response


/-! ## Concrete fixtures used by witnesses and counterexamples -/

/-- The spec's default configuration (§6). -/
def sampleOptions : InteractshStartOptions :=
  { token := none, pollingInterval := 5000, correlationIdLength := 20,
    correlationIdNonceLength := 13 }

/-- A persisted session for `https://oast.site`. -/
def sampleSession : ClientSession :=
  { serverUrl := "https://oast.site", correlationId := "aaaaaaaaaaaaaaaaaaaa",
    secretKey := "bbbbbbbbbbbbb", token := none }

/-- A persisted session for `https://oast.fun`. -/
def sampleSessionFun : ClientSession :=
  { serverUrl := "https://oast.fun", correlationId := "cccccccccccccccccccc",
    secretKey := "ddddddddddddd", token := none }

/-- A freshly constructed store (no persisted file). -/
def freshStore : StoreState := loadPersistedData none

/-- A system whose persistence holds an RSA keypair and one session, with a
freshly constructed (not yet started) store — the S4 restart situation. -/
def restartSystem : SystemState :=
  { store := freshStore, persistedSessions := [sampleSession],
    persistedKeypairRecord := some "rsa-keypair-record" }

/-- A started store with live clients for `oast.site` and `oast.fun`. -/
def twoClientStore : StoreState :=
  { clients := ["https://oast.site", "https://oast.fun"], interactions := [],
    activeUrls := [], filter := "", isStarted := true,
    interactionCounter := 0, currentOptions := some sampleOptions }

/-- The S2 situation: two live clients, both sessions persisted. -/
def twoClientSystem : SystemState :=
  { store := twoClientStore,
    persistedSessions := [sampleSession, sampleSessionFun],
    persistedKeypairRecord := some "rsa-keypair-record" }

/-- S2's server behaviour: `oast.site` answers 400, `oast.fun` answers an
empty 200 batch. -/
def expiryResponses : String → PollResponse := fun serverUrl =>
  if serverUrl == "https://oast.site" then .badRequest else .ok []

/-! ## Preservation lemmas for the polling pass -/

theorem interactionCallback_clients (s : StoreState) (raw : RawInteraction)
    (nowMs : Nat) (nowIso : String) :
    ((interactionCallback s raw nowMs nowIso).1).clients = s.clients := by
  unfold interactionCallback
  cases s.activeUrls.find? (fun u => urlMatches u (raw.fullId.getD "")) with
  | none => rfl
  | some u =>
    by_cases h : u.isActive = true
    · simp only [h, if_true]
    · simp only [h, Bool.false_eq_true, if_false]

theorem deliverItems_clients (nowMs : Nat) (nowIso : String)
    (items : List RawInteraction) (s : StoreState) :
    (deliverItems nowMs nowIso s items).clients = s.clients := by
  induction items generalizing s with
  | nil => rfl
  | cons raw rest ih =>
    show (deliverItems nowMs nowIso ((interactionCallback s raw nowMs nowIso).1) rest).clients = s.clients
    rw [ih, interactionCallback_clients]

theorem pollClientStep_clients (responses : String → PollResponse)
    (nowMs : Nat) (nowIso : String) (s : StoreState) (serverUrl : String) :
    (pollClientStep responses nowMs nowIso s serverUrl).clients = s.clients := by
  unfold pollClientStep
  cases clientPollOutcome (responses serverUrl) with
  | ok items => exact deliverItems_clients nowMs nowIso items s
  | error e => rfl

theorem foldl_pollClientStep_clients (responses : String → PollResponse)
    (nowMs : Nat) (nowIso : String) (urls : List String) (s : StoreState) :
    (urls.foldl (pollClientStep responses nowMs nowIso) s).clients = s.clients := by
  induction urls generalizing s with
  | nil => rfl
  | cons url rest ih =>
    show (rest.foldl (pollClientStep responses nowMs nowIso)
      (pollClientStep responses nowMs nowIso s url)).clients = s.clients
    rw [ih, pollClientStep_clients]

/-! ## Claims C1, C2 and C10: start, session expiry, poll -/

/-- C1 (counterexample).  Against a persistence that already holds an RSA
keypair and one client session, `start` leaves the client map empty: the
previously persisted server does not get a live client, contradicting the
claim that every persisted session is reattached. -/
theorem C1_counterexample :
    (systemStart restartSystem sampleOptions).1.store.clients = [] ∧
    restartSystem.persistedSessions.length = 1 ∧
    getClientCount (systemStart restartSystem sampleOptions).1.store ≠ 1 := by
  refine ⟨rfl, rfl, ?_⟩
  decide

/-- C1 (amended).  `start(config)` records the configuration, resets the
interaction log and marks the store started — and nothing else: it never
calls `loadOrGenerateRSAKeys` (that function has no caller in the
repository), loads no persisted session, and leaves the client map and the
durable records untouched, so previously persisted servers get no client. -/
theorem C1_start_records_config_only (sys : SystemState)
    (options : InteractshStartOptions) (h : sys.store.isStarted = false) :
    (systemStart sys options).1.store.currentOptions = some options ∧
    (systemStart sys options).1.store.interactions = [] ∧
    (systemStart sys options).1.store.isStarted = true ∧
    (systemStart sys options).1.store.clients = sys.store.clients ∧
    (systemStart sys options).1.store.activeUrls = sys.store.activeUrls ∧
    (systemStart sys options).1.persistedSessions = sys.persistedSessions ∧
    (systemStart sys options).1.persistedKeypairRecord
      = sys.persistedKeypairRecord ∧
    (systemStart sys options).2 = true := by
  simp [systemStart, start, h]

/-- C1 witness: the amended start behaviour at the concrete restart
system. -/
theorem C1_start_records_config_only_witness :
    (systemStart restartSystem sampleOptions).1.store.currentOptions
      = some sampleOptions ∧
    (systemStart restartSystem sampleOptions).1.store.interactions = [] ∧
    (systemStart restartSystem sampleOptions).1.store.isStarted = true ∧
    (systemStart restartSystem sampleOptions).1.store.clients
      = restartSystem.store.clients ∧
    (systemStart restartSystem sampleOptions).1.store.activeUrls
      = restartSystem.store.activeUrls ∧
    (systemStart restartSystem sampleOptions).1.persistedSessions
      = restartSystem.persistedSessions ∧
    (systemStart restartSystem sampleOptions).1.persistedKeypairRecord
      = restartSystem.persistedKeypairRecord ∧
    (systemStart restartSystem sampleOptions).2 = true :=
  C1_start_records_config_only restartSystem sampleOptions rfl

/-- C2 (counterexample).  S2: two clients; `oast.site` answers the next poll
with 400.  The poll completes without surfacing an exception, but the
expired client is *not* removed and its session is *not* deleted:
`get_client_count` still answers 2 and persistence still holds both
sessions, contradicting the claimed count of 1. -/
theorem C2_counterexample :
    systemPoll twoClientSystem expiryResponses 0 "2024-01-01T00:00:00Z" true
      = .ok (twoClientSystem, []) ∧
    getClientCount twoClientSystem.store ≠ 1 ∧
    twoClientSystem.persistedSessions.length ≠ 1 := by
  refine ⟨rfl, by decide, by decide⟩

/-- C2 (amended).  A 400 poll answer makes the client's force-poll throw
`SESSION_EXPIRED`; `InteractshStore.poll` catches and logs every per-client
error, so no exception surfaces to the host — but the store registers no
`onSessionExpired` callback and removes nothing: after any poll pass the
client map and the persisted sessions are exactly what they were before. -/
theorem C2_session_expiry_not_removed (sys : SystemState)
    (responses : String → PollResponse) (nowMs : Nat) (nowIso : String)
    (notifyOthers : Bool) (h : sys.store.isStarted = true) :
    ∃ sysAfter events,
      systemPoll sys responses nowMs nowIso notifyOthers
        = .ok (sysAfter, events) ∧
      sysAfter.store.clients = sys.store.clients ∧
      sysAfter.persistedSessions = sys.persistedSessions ∧
      sysAfter.persistedKeypairRecord = sys.persistedKeypairRecord := by
  unfold systemPoll poll
  rw [h]
  simp only [Bool.true_eq_false, if_false]
  refine ⟨_, _, rfl, ?_, rfl, rfl⟩
  exact foldl_pollClientStep_clients responses nowMs nowIso sys.store.clients
    sys.store

/-- C2 witness: the amended expiry behaviour at the concrete S2 system. -/
theorem C2_session_expiry_not_removed_witness :
    ∃ sysAfter events,
      systemPoll twoClientSystem expiryResponses 0 "2024-01-01T00:00:00Z" true
        = .ok (sysAfter, events) ∧
      sysAfter.store.clients = twoClientSystem.store.clients ∧
      sysAfter.persistedSessions = twoClientSystem.persistedSessions ∧
      sysAfter.persistedKeypairRecord
        = twoClientSystem.persistedKeypairRecord :=
  C2_session_expiry_not_removed twoClientSystem expiryResponses 0
    "2024-01-01T00:00:00Z" true rfl

/-- C10.  `start` on a transition from not-started to started resets the
in-memory interaction log unconditionally: even when the store was
constructed from a persisted `data.json` holding interactions,
`getInteractions` right after `start` is empty. -/
theorem C10_start_resets_interactions (parsed : PersistedData)
    (options : InteractshStartOptions) :
    getInteractions (start (loadPersistedData (some parsed)) options).1 = [] ∧
    (loadPersistedData (some parsed)).interactions = parsed.interactions ∧
    (loadPersistedData (some parsed)).isStarted = false ∧
    ((start (loadPersistedData (some parsed)) options).1).isStarted = true :=
  ⟨rfl, rfl, rfl, rfl⟩


/-! ## Claims C3 and C4: attribution of incoming interactions -/

/-- The claim's notion of "the most recent matching ActiveUrl": the registry
is append-ordered, so the last matching element is the most recently
minted.  (Spec-side definition, for comparison with the code's choice.) -/
def mostRecentMatchingUrl (urls : List ActiveUrl) (fullId : String) :
    Option ActiveUrl :=
  (urls.filter (fun u => urlMatches u fullId)).getLast?

/-- An older URL whose `uniqueId` is a prefix of the newer one's. -/
def urlOld : ActiveUrl :=
  { url := "https://abc.oast.site", uniqueId := "abc",
    createdAt := "2024-01-01T00:00:00Z", isActive := true,
    serverUrl := "https://oast.site", tag := some "old-tag" }

/-- A more recently minted URL also matching the incoming `full-id`. -/
def urlNew : ActiveUrl :=
  { url := "https://abcd.oast.fun", uniqueId := "abcd",
    createdAt := "2024-01-02T00:00:00Z", isActive := true,
    serverUrl := "https://oast.fun", tag := some "new-tag" }

/-- A started store tracking both URLs, the older one first. -/
def twoUrlStore : StoreState :=
  { clients := [], interactions := [], activeUrls := [urlOld, urlNew],
    filter := "", isStarted := true, interactionCounter := 0,
    currentOptions := some sampleOptions }

/-- An incoming interaction whose `full-id` is matched by both URLs. -/
def rawHit : RawInteraction :=
  { protocol := some "http", fullId := some "abcdxyz", qType := none,
    rawRequest := none, rawResponse := none, remoteAddress := none,
    timestamp := some "2024-01-02T01:00:00Z" }

/-- C3 (counterexample).  `full-id = "abcdxyz"` is matched by both tracked
URLs; the most recent matching ActiveUrl is `urlNew` (tag "new-tag"), but
the callback attributes the interaction to the *first* match in registry
order and copies "old-tag" — `Array.find` returns the oldest match, not the
most recent one. -/
theorem C3_counterexample :
    ((interactionCallback twoUrlStore rawHit 5 "now").1.interactions.map
      (fun i => i.tag)) = [some "old-tag"] ∧
    ((interactionCallback twoUrlStore rawHit 5 "now").1.interactions.map
      (fun i => i.serverUrl)) = [some "https://oast.site"] ∧
    mostRecentMatchingUrl twoUrlStore.activeUrls "abcdxyz" = some urlNew ∧
    urlNew.tag = some "new-tag" ∧
    (some "old-tag" : Option String) ≠ some "new-tag" := by
  refine ⟨by decide, by decide, by decide, rfl, by decide⟩

/-- C3 (amended).  When more than one ActiveUrl matches, the callback
attributes the interaction to the *first* matching record in registry
(insertion) order — the oldest one — and copies that record's tag and
server_url onto the constructed Interaction. -/
theorem C3_first_match_attribution (s : StoreState) (raw : RawInteraction)
    (nowMs : Nat) (nowIso : String) (u : ActiveUrl)
    (hfind : s.activeUrls.find? (fun v => urlMatches v (raw.fullId.getD ""))
      = some u)
    (hactive : u.isActive = true) :
    (interactionCallback s raw nowMs nowIso).1.interactions
      = s.interactions ++
        [parseInteraction raw u.tag (some u.serverUrl)
          (s.interactionCounter + 1) nowMs nowIso] ∧
    (parseInteraction raw u.tag (some u.serverUrl)
      (s.interactionCounter + 1) nowMs nowIso).tag = u.tag ∧
    (parseInteraction raw u.tag (some u.serverUrl)
      (s.interactionCounter + 1) nowMs nowIso).serverUrl
      = some u.serverUrl := by
  refine ⟨?_, rfl, rfl⟩
  simp only [interactionCallback, hfind, hactive, if_true]

/-- C3 witness: the amended attribution at the concrete two-URL store. -/
theorem C3_first_match_attribution_witness :
    (interactionCallback twoUrlStore rawHit 5 "now").1.interactions
      = twoUrlStore.interactions ++
        [parseInteraction rawHit urlOld.tag (some urlOld.serverUrl)
          (twoUrlStore.interactionCounter + 1) 5 "now"] ∧
    (parseInteraction rawHit urlOld.tag (some urlOld.serverUrl)
      (twoUrlStore.interactionCounter + 1) 5 "now").tag = urlOld.tag ∧
    (parseInteraction rawHit urlOld.tag (some urlOld.serverUrl)
      (twoUrlStore.interactionCounter + 1) 5 "now").serverUrl
      = some urlOld.serverUrl :=
  C3_first_match_attribution twoUrlStore rawHit 5 "now" urlOld (by decide) rfl

/-- C4.  (1) Every interaction in the log after the callback was either
already there, or there is a tracked ActiveUrl whose `uniqueId` the
appended interaction's `full_id` starts with (or equals) and which was
active at that moment.  (2) When every matching ActiveUrl is disabled — or
no ActiveUrl matches at all — the interaction is dropped silently: the log
is unchanged and no event is emitted. -/
theorem C4_append_requires_active_match (s : StoreState)
    (raw : RawInteraction) (nowMs : Nat) (nowIso : String) :
    (∀ i ∈ (interactionCallback s raw nowMs nowIso).1.interactions,
      i ∈ s.interactions ∨
        ∃ u ∈ s.activeUrls,
          (strStartsWith i.fullId u.uniqueId || u.uniqueId == i.fullId) = true ∧
          u.isActive = true) ∧
    ((∀ u ∈ s.activeUrls,
        urlMatches u (raw.fullId.getD "") = true → u.isActive = false) →
      (interactionCallback s raw nowMs nowIso).1.interactions
        = s.interactions ∧
      (interactionCallback s raw nowMs nowIso).2 = []) := by
  unfold interactionCallback
  cases hfind : s.activeUrls.find? (fun v => urlMatches v (raw.fullId.getD "")) with
  | none =>
    exact ⟨fun i hi => Or.inl hi, fun _ => ⟨rfl, rfl⟩⟩
  | some u =>
    have hmem : u ∈ s.activeUrls := List.mem_of_find?_eq_some hfind
    have hmatch : urlMatches u (raw.fullId.getD "") = true := by
      have h1 := List.find?_some hfind
      simpa using h1
    by_cases hact : u.isActive = true
    · simp only [hact, if_true]
      constructor
      · intro i hi
        simp only [List.mem_append, List.mem_singleton] at hi
        rcases hi with hi | hi
        · exact Or.inl hi
        · subst hi
          refine Or.inr ⟨u, hmem, ?_, hact⟩
          simpa [parseInteraction, urlMatches] using hmatch
      · intro hall
        have := hall u hmem hmatch
        rw [hact] at this
        cases this
    · simp only [Bool.not_eq_true] at hact
      simp only [hact, Bool.false_eq_true, if_false]
      refine ⟨fun i hi => Or.inl hi, fun _ => ?_⟩
      simp

/-- A store tracking one disabled URL (the S3 situation after
`set_url_active(u1, false)`). -/
def disabledUrlStore : StoreState :=
  { clients := [], interactions := [],
    activeUrls := [{ urlOld with isActive := false }], filter := "",
    isStarted := true, interactionCounter := 0,
    currentOptions := some sampleOptions }

/-- An interaction whose `full-id` extends the disabled URL's id
(`u1.unique_id ++ "xyz"`). -/
def rawDisabledHit : RawInteraction :=
  { protocol := some "http", fullId := some "abcxyz", qType := none,
    rawRequest := none, rawResponse := none, remoteAddress := none,
    timestamp := none }

/-- C4 witness: feeding an interaction matching only the disabled URL
leaves the log unchanged and emits nothing. -/
theorem C4_append_requires_active_match_witness :
    (interactionCallback disabledUrlStore rawDisabledHit 7 "now").1.interactions
      = disabledUrlStore.interactions ∧
    (interactionCallback disabledUrlStore rawDisabledHit 7 "now").2 = [] :=
  (C4_append_requires_active_match disabledUrlStore rawDisabledHit 7 "now").2
    (by decide)


/-! ## Claims C5 and C6: the hybrid decryption pipeline -/

/-- C5.  `decryptMessage` implements exactly the specification's step list
for *decrypt_interaction*: Base64-decode the key blob, RSA-OAEP-decrypt it,
Base64-decode the secure message, split it into a 16-byte IV and the
ciphertext, right-pad a short symmetric key with zero bytes to 32 (and
truncate a long one to 32), AES-256-CFB-decrypt, and decode the result as
UTF-8 — for every key pair and every pair of Base64 inputs. -/
theorem C5_decryptMessage_matches_spec (hash : List Nat → List Nat)
    (b64decode : String → List Nat) (utf8decode : List Nat → String)
    (keyPair : Option RSAKeyPair) (key secureMessage : String) :
    decryptMessage hash b64decode utf8decode keyPair key secureMessage
      = decryptInteractionSpec hash b64decode utf8decode keyPair key
          secureMessage := by
  unfold decryptMessage decryptInteractionSpec
  cases keyPair with
  | none => rfl
  | some pair =>
    cases h : rsaOaepDecrypt hash (b64decode key) pair.privateKey [] with
    | error e => simp [h]
    | ok decryptedKey => simp [h, normalizeAesKey_eq_padOrTruncateKeySpec]

/-- C6.  For every 32-byte key, 16-byte IV and arbitrary plaintext, the
repository's AES-256-CFB decryption inverts its AES-256-CFB encryption. -/
theorem C6_aesCfbDecrypt_aesCfbEncrypt (key iv m : List Nat)
    (hkey : key.length = 32) (hiv : iv.length = 16) :
    (aesCfbEncrypt key iv m).bind (fun ct => aesCfbDecrypt key iv ct)
      = .ok m := by
  have h1 : aesCfbEncrypt key iv m
      = .ok (cfbEncryptLoop (keyExpansion key) iv m) := by
    unfold aesCfbEncrypt
    rw [if_neg (by omega), if_neg (by omega)]
  have h2 : aesCfbDecrypt key iv (cfbEncryptLoop (keyExpansion key) iv m)
      = .ok (cfbDecryptLoop (keyExpansion key) iv
          (cfbEncryptLoop (keyExpansion key) iv m)) := by
    unfold aesCfbDecrypt
    rw [if_neg (by omega), if_neg (by omega)]
  rw [h1]
  show aesCfbDecrypt key iv (cfbEncryptLoop (keyExpansion key) iv m) = .ok m
  rw [h2, cfbDecryptLoop_cfbEncryptLoop (keyExpansion key) m.length m iv
    (Nat.le_refl m.length)]

/-- C6 witness: a concrete all-zero key and IV with a 3-byte plaintext. -/
theorem C6_aesCfbDecrypt_aesCfbEncrypt_witness :
    (aesCfbEncrypt (List.replicate 32 0) (List.replicate 16 0) [1, 2, 3]).bind
      (fun ct => aesCfbDecrypt (List.replicate 32 0) (List.replicate 16 0) ct)
      = .ok [1, 2, 3] :=
  C6_aesCfbDecrypt_aesCfbEncrypt (List.replicate 32 0) (List.replicate 16 0)
    [1, 2, 3] (by simp) (by simp)

/-! ## Claim C7: the random identifier generator -/

theorem grsCharAt_mem (lettersOnly : Bool) (byte : Nat) :
    grsCharAt lettersOnly byte ∈ grsAlphabet lettersOnly := by
  have hlen : 0 < (grsAlphabet lettersOnly).length := by
    cases lettersOnly <;> decide
  have hidx : byte % (grsAlphabet lettersOnly).length
      < (grsAlphabet lettersOnly).length := Nat.mod_lt _ hlen
  unfold grsCharAt
  rw [List.getD_eq_get _ _ hidx]
  exact List.get_mem _ _ _

/-- C7 (amended).  `generateRandomString(length, lettersOnly)` yields
exactly `length` characters, each drawn from the 36-character alphabet
a–z0–9 (the 26-character alphabet a–z when `lettersOnly`, so letters-only
output matches `[a-z]*`), and length 0 yields the empty string; the
selection at each position is `byte % alphabetSize`, which — because 256 is
a multiple of neither 36 nor 26 — is *not* uniform over uniformly random
CSPRNG bytes. -/
theorem C7_generateRandomString_length_alphabet (len : Nat)
    (lettersOnly : Bool) (bytes : List Nat) :
    (generateRandomString len lettersOnly bytes).length = len ∧
    (∀ c ∈ (generateRandomString len lettersOnly bytes).toList,
      c ∈ grsAlphabet lettersOnly) ∧
    (∀ c ∈ (generateRandomString len true bytes).toList,
      'a' ≤ c ∧ c ≤ 'z') ∧
    generateRandomString 0 lettersOnly bytes = "" := by
  have hmem : ∀ (lo : Bool) (c : Char),
      c ∈ (generateRandomString len lo bytes).toList → c ∈ grsAlphabet lo := by
    intro lo c hc
    have : (generateRandomString len lo bytes).toList
        = (List.range len).map (fun i => grsCharAt lo (bytes.getD i 0)) := rfl
    rw [this] at hc
    rcases List.mem_map.mp hc with ⟨i, _, rfl⟩
    exact grsCharAt_mem lo (bytes.getD i 0)
  refine ⟨?_, hmem lettersOnly, ?_, rfl⟩
  · show ((List.range len).map (fun i => grsCharAt lettersOnly (bytes.getD i 0))).length = len
    simp
  · intro c hc
    have hall : ∀ c ∈ grsAlphabet true, 'a' ≤ c ∧ c ≤ 'z' := by decide
    exact hall c (hmem true c hc)

/-- C7 witness: the amended shape at length 3, letters-only, with concrete
CSPRNG bytes. -/
theorem C7_generateRandomString_length_alphabet_witness :
    (generateRandomString 3 true [0, 25, 255]).length = 3 ∧
    (∀ c ∈ (generateRandomString 3 true [0, 25, 255]).toList,
      c ∈ grsAlphabet true) ∧
    (∀ c ∈ (generateRandomString 3 true [0, 25, 255]).toList,
      'a' ≤ c ∧ c ≤ 'z') ∧
    generateRandomString 0 true [0, 25, 255] = "" :=
  C7_generateRandomString_length_alphabet 3 true [0, 25, 255]

/-- C7 (counterexample to uniformity).  Over the 256 equally likely values
of one CSPRNG byte, 8 of them select `'a'` but only 7 select `'z'`
(256 = 7·36 + 4), so the by-modulo selection is not uniform over the
36-character alphabet. -/
theorem C7_counterexample :
    ((List.range 256).filter (fun b => grsCharAt false b == 'a')).length = 8 ∧
    ((List.range 256).filter (fun b => grsCharAt false b == 'z')).length = 7 ∧
    ((List.range 256).filter (fun b => grsCharAt false b == 'a')).length
      ≠ ((List.range 256).filter (fun b => grsCharAt false b == 'z')).length := by
  refine ⟨by decide, by decide, by decide⟩

/-! ## Claim C8: registration failure surfacing -/

/-- C8 (counterexample).  A 500 answer with body `"boom"`: the error that
reaches the caller is the fixed string
"Registration failed, please check your server URL and token", which does
not contain the server's body text. -/
theorem C8_counterexample :
    performRegistration { status := 500, body := "boom" }
      = .error "Registration failed, please check your server URL and token" ∧
    registrationInnerResult { status := 500, body := "boom" }
      = .error "Registration failed: boom" ∧
    containsSubstr "boom"
      "Registration failed, please check your server URL and token" = false := by
  refine ⟨rfl, rfl, by decide⟩

/-- C8 (amended).  Every non-200 `/register` response makes registration
fail, and the failure propagates uncaught through `getOrCreateClient` to
the caller of `generate_url`; but the surfaced error message is the fixed
string "Registration failed, please check your server URL and token" — the
response body text appears only in the inner error that is logged before
the rethrow. -/
theorem C8_registration_failure_generic_message (response : HttpResponse)
    (h : response.status ≠ 200) :
    performRegistration response
      = .error "Registration failed, please check your server URL and token" ∧
    registrationInnerResult response
      = .error ("Registration failed: " ++ response.body) ∧
    (∀ (s : StoreState) (serverUrl : String), s.isStarted = true →
      s.clients.contains serverUrl = false →
      generateUrlRegistrationOutcome s serverUrl response
        = .error "Registration failed, please check your server URL and token") := by
  have hinner : registrationInnerResult response
      = .error ("Registration failed: " ++ response.body) := by
    unfold registrationInnerResult
    rw [if_neg h]
  have hperf : performRegistration response
      = .error "Registration failed, please check your server URL and token" := by
    unfold performRegistration
    rw [hinner]
  refine ⟨hperf, hinner, ?_⟩
  intro s serverUrl hs hc
  unfold generateUrlRegistrationOutcome
  rw [hs]
  simp only [Bool.true_eq_false, if_false, hc, Bool.false_eq_true, hperf]

/-- C8 witness: the amended failure behaviour at the concrete 500
response. -/
theorem C8_registration_failure_generic_message_witness :
    performRegistration { status := 500, body := "boom" }
      = .error "Registration failed, please check your server URL and token" ∧
    registrationInnerResult { status := 500, body := "boom" }
      = .error ("Registration failed: " ++ "boom") ∧
    (∀ (s : StoreState) (serverUrl : String), s.isStarted = true →
      s.clients.contains serverUrl = false →
      generateUrlRegistrationOutcome s serverUrl { status := 500, body := "boom" }
        = .error "Registration failed, please check your server URL and token") :=
  C8_registration_failure_generic_message { status := 500, body := "boom" }
    (by decide)


/-! ## Claim C9: repeated set_url_active -/

theorem find?_setFirstActive (l : List ActiveUrl) (uid : String) (v : Bool) :
    (setFirstActive l uid v).find? (fun u => u.uniqueId == uid)
      = (l.find? (fun u => u.uniqueId == uid)).map
          (fun u => { u with isActive := v }) := by
  induction l with
  | nil => rfl
  | cons u rest ih =>
    by_cases h : (u.uniqueId == uid) = true
    · simp only [setFirstActive, h, if_true]
      rw [List.find?_cons_of_pos rest (by simpa using h),
        List.find?_cons_of_pos rest h]
      rfl
    · have hb : (u.uniqueId == uid) = false := by
        rwa [Bool.not_eq_true] at h
      simp only [setFirstActive, hb, Bool.false_eq_true, if_false]
      rw [List.find?_cons_of_neg _ (by simp [hb]),
        List.find?_cons_of_neg rest (by simp [hb])]
      exact ih

theorem setFirstActive_idem (l : List ActiveUrl) (uid : String) (v : Bool) :
    setFirstActive (setFirstActive l uid v) uid v = setFirstActive l uid v := by
  induction l with
  | nil => rfl
  | cons u rest ih =>
    by_cases h : (u.uniqueId == uid) = true
    · simp only [setFirstActive, h, if_true]
    · have hb : (u.uniqueId == uid) = false := by
        rwa [Bool.not_eq_true] at h
      simp only [setFirstActive, hb, Bool.false_eq_true, if_false, ih]

/-- C9 (amended).  Calling `setUrlActive(uid, v)` twice with the same `v`
returns the same boolean both times and leaves the registry exactly as
after a single call — but each *successful* call persists with notification
and therefore emits its own `DataChanged`, so the pair of calls emits two
events when the id is tracked (and none when it is not), not at most one. -/
theorem C9_setUrlActive_twice (s : StoreState) (uid : String) (v : Bool) :
    (setUrlActive (setUrlActive s uid v).1 uid v).2.1
      = (setUrlActive s uid v).2.1 ∧
    (setUrlActive (setUrlActive s uid v).1 uid v).1
      = (setUrlActive s uid v).1 ∧
    (setUrlActive (setUrlActive s uid v).1 uid v).2.2
      = (setUrlActive s uid v).2.2 ∧
    ((setUrlActive s uid v).2.2 ++
        (setUrlActive (setUrlActive s uid v).1 uid v).2.2).length
      = (if (setUrlActive s uid v).2.1 then 2 else 0) := by
  cases hf : s.activeUrls.find? (fun u => u.uniqueId == uid) with
  | none =>
    have h1 : setUrlActive s uid v = (s, false, []) := by
      unfold setUrlActive
      rw [hf]
    rw [h1]
    rw [h1]
    simp
  | some u =>
    have h1 : setUrlActive s uid v
        = ({ s with activeUrls := setFirstActive s.activeUrls uid v }, true,
            [Event.dataChanged]) := by
      unfold setUrlActive
      rw [hf]
    have hf2 : ({ s with activeUrls := setFirstActive s.activeUrls uid v
        }).activeUrls.find? (fun u => u.uniqueId == uid)
        = some { u with isActive := v } := by
      show (setFirstActive s.activeUrls uid v).find? (fun u => u.uniqueId == uid)
        = some { u with isActive := v }
      rw [find?_setFirstActive, hf]
      rfl
    have h2 : setUrlActive
        ({ s with activeUrls := setFirstActive s.activeUrls uid v }) uid v
        = ({ s with activeUrls := setFirstActive s.activeUrls uid v }, true,
            [Event.dataChanged]) := by
      unfold setUrlActive
      rw [hf2]
      show ({ s with activeUrls :=
          setFirstActive (setFirstActive s.activeUrls uid v) uid v }, true,
          [Event.dataChanged]) = _
      rw [setFirstActive_idem]
    rw [h1, h2]
    simp

/-- A tracked active URL `u1`. -/
def u1Entry : ActiveUrl :=
  { url := "https://u1.oast.site", uniqueId := "u1",
    createdAt := "2024-01-01T00:00:00Z", isActive := true,
    serverUrl := "https://oast.site", tag := none }

/-- A store tracking one active URL `u1`. -/
def oneUrlStore : StoreState :=
  { clients := [], interactions := [], activeUrls := [u1Entry],
    filter := "", isStarted := true, interactionCounter := 0,
    currentOptions := none }

/-- C9 (counterexample).  Disabling `u1` twice in a row: each call emits a
`DataChanged`, so the pair of calls emits two events — the claimed "at most
one event for the pair" is false. -/
theorem C9_counterexample :
    (setUrlActive oneUrlStore "u1" false).2.2 = [Event.dataChanged] ∧
    (setUrlActive (setUrlActive oneUrlStore "u1" false).1 "u1" false).2.2
      = [Event.dataChanged] ∧
    ¬(((setUrlActive oneUrlStore "u1" false).2.2 ++
        (setUrlActive (setUrlActive oneUrlStore "u1" false).1 "u1" false).2.2).length
        ≤ 1) := by
  refine ⟨by decide, by decide, by decide⟩

end QuickSSRF
